import Mathlib

/-!
Verification of the species-occurrence analysis application
(`app.py`, `pages/1_Analisar_Minhas_Especies.py`, `pages/2_Buscar_Novas_Especies.py`,
`utils/helpers.py`).

The Python code is shallowly embedded over ℚ (numeric values), `String`
(labels and names), `Option`/`Except` (fallible calls) and explicit
oracle functions for the external collaborators (the GBIF HTTP client,
the shapely geometry predicates, the Flora do Brasil HTTP client).
-/

/-- Python's built-in `round` on a rational value: round half to even
(banker's rounding), as used by `round(escore)` in both copies of
`analisar_ocorrencia_especies` and by `:.0f` / `:.1f` formatting. -/
def pyRound (q : ℚ) : ℤ :=
  if q - ⌊q⌋ < 1/2 then ⌊q⌋
  else if (1:ℚ)/2 < q - ⌊q⌋ then ⌊q⌋ + 1
  else if 2 ∣ ⌊q⌋ then ⌊q⌋ else ⌊q⌋ + 1

/-- Python `f"{q:.0f}"` on a nonnegative value: round to integer, print. -/
def fmt0 (q : ℚ) : String := toString (pyRound q)

/-- Python `f"{q:.1f}"` on a nonnegative value: one decimal digit,
rounded half to even. -/
def fmt1 (q : ℚ) : String :=
  let n := pyRound (10 * q)
  toString (n / 10) ++ "." ++ toString (n % 10)

/-- A coordinate pair `(longitude, latitude)` in degrees (EPSG:4326). -/
abbrev Pt := ℚ × ℚ

/-- One record of a GBIF occurrence-search response: the two coordinate
fields may each be absent (`'decimalLongitude' in rec` checks in the code). -/
structure GbifRec where
  decimalLongitude? : Option ℚ
  decimalLatitude? : Option ℚ
deriving DecidableEq, Repr

/-- A GBIF `occ.search` response: the total match `count` and one page of
`results`. -/
structure GbifResp where
  count : Nat
  results : List GbifRec
deriving DecidableEq, Repr

/-- `[Point(rec['decimalLongitude'], rec['decimalLatitude']) for rec in results
if 'decimalLongitude' in rec and 'decimalLatitude' in rec]`. -/
def coordsOf (rs : List GbifRec) : List Pt :=
  rs.filterMap fun r =>
    match r.decimalLongitude?, r.decimalLatitude? with
    | some x, some y => some (x, y)
    | _, _ => none

/-- One row appended to `resultados` by `analisar_ocorrencia_especies`. -/
structure Resultado where
  especie : String
  ocorrencia_na_regiao : String
  escore_proximidade : ℤ
  gbif_total_records : Nat
  coordenada? : Option Pt
  pontos : List Pt
deriving DecidableEq, Repr

/-- `f"Dentro da área ({n} registros)"`. -/
def labelDentro (n : Nat) : String :=
  "Dentro da área (" ++ toString n ++ " registros)"

/-- `f"Distante (>{T:.0f} km)"`  (app.py). -/
def labelDistante (T : ℚ) : String := "Distante (>" ++ fmt0 T ++ " km)"

/-- `f"Longe (>{T:.0f} km)"`  (pages/1_Analisar_Minhas_Especies.py). -/
def labelLonge (T : ℚ) : String := "Longe (>" ++ fmt0 T ++ " km)"

/-- `f"Muito Próxima ({dkm*1000:.0f} m)"`  (app.py). -/
def labelMuitoProxima (dkm : ℚ) : String :=
  "Muito Próxima (" ++ fmt0 (dkm * 1000) ++ " m)"

/-- `f"Próxima ({dkm:.1f} km)"`  (both files). -/
def labelProxima (dkm : ℚ) : String := "Próxima (" ++ fmt1 dkm ++ " km)"

/-- `f"Moderadamente Próxima ({dkm:.1f} km)"`  (app.py). -/
def labelModeradamenteProxima (dkm : ℚ) : String :=
  "Moderadamente Próxima (" ++ fmt1 dkm ++ " km)"

/-- `distancias.min()`: the minimum of `dist` over a list of points
(0 on the empty list, which the callers never reach). -/
def minimumD (dist : Pt → ℚ) : List Pt → ℚ
  | [] => 0
  | [p] => dist p
  | p :: q :: ps => min (dist p) (minimumD dist (q :: ps))

/-- `gdf_ocorrencias.geometry.loc[distancias.idxmin()]`: pandas `idxmin`
returns the first index attaining the minimum, so this is the first point
whose distance equals the minimum. -/
def nearestPt (dist : Pt → ℚ) (ps : List Pt) : Pt :=
  (ps.find? fun p => dist p = minimumD dist ps).getD (0, 0)

/-- The body of the per-species loop of `analisar_ocorrencia_especies` in
`app.py` (lines 63–125), for one species.  `resp?` is the outcome of the
`try: occ.search(**search_params)` call (`none` = an exception was raised,
handled by the `except` branch).  `within` is the shapely/geopandas
containment oracle used by `gpd.sjoin(..., predicate='within')` (which
keeps the left-frame rows, in order, whose point lies in the interior of
the area), and `dist` is the shapely `poligono.distance` oracle, both in
degrees.  `T` is `distancia_maxima_relevancia_km`. -/
def analisarEspecieApp (within : Pt → Bool) (dist : Pt → ℚ) (T : ℚ)
    (especie : String) (resp? : Option GbifResp) : Resultado :=
  match resp? with
  | none => ⟨especie, "Erro na busca", -1, 0, none, []⟩
  | some dados =>
    let total := dados.count
    if dados.results.isEmpty then
      ⟨especie, "Não encontrado no GBIF", -1, total, none, []⟩
    else
      let pontos := coordsOf dados.results
      if pontos.isEmpty then
        ⟨especie, "Dados insuficientes", -1, total, none, []⟩
      else
        match pontos.filter within with
        | dentro₀ :: dentro₁ =>
          ⟨especie, labelDentro (dentro₀ :: dentro₁).length, 10, total,
            some dentro₀, pontos⟩
        | [] =>
          let dmin := minimumD dist pontos
          let pprox := nearestPt dist pontos
          let dkm := dmin * (2783/25)
          if T ≤ dkm then
            ⟨especie, labelDistante T, 0, total, some pprox, pontos⟩
          else
            let escore := pyRound (9 * (1 - dkm / T))
            if dkm < 1 then
              ⟨especie, labelMuitoProxima dkm, escore, total, some pprox, pontos⟩
            else if dkm < 50 then
              ⟨especie, labelProxima dkm, escore, total, some pprox, pontos⟩
            else
              ⟨especie, labelModeradamenteProxima dkm, escore, total,
                some pprox, pontos⟩

/-- The body of the per-species loop of `analisar_ocorrencia_especies` in
`pages/1_Analisar_Minhas_Especies.py` (lines 32–82), for one species.
Identical to the `app.py` version except: a failed search (here: a `None`
returned by `search_gbif_with_retries`) is labelled `"Falha na busca"`,
the far label is `"Longe"`, and every below-threshold distance is
labelled `"Próxima"` (no very-near / moderately-near buckets). -/
def analisarEspeciePages (within : Pt → Bool) (dist : Pt → ℚ) (T : ℚ)
    (especie : String) (resp? : Option GbifResp) : Resultado :=
  match resp? with
  | none => ⟨especie, "Falha na busca", -1, 0, none, []⟩
  | some dados =>
    let total := dados.count
    if dados.results.isEmpty then
      ⟨especie, "Não encontrado no GBIF", -1, total, none, []⟩
    else
      let pontos := coordsOf dados.results
      if pontos.isEmpty then
        ⟨especie, "Dados insuficientes", -1, total, none, []⟩
      else
        match pontos.filter within with
        | dentro₀ :: dentro₁ =>
          ⟨especie, labelDentro (dentro₀ :: dentro₁).length, 10, total,
            some dentro₀, pontos⟩
        | [] =>
          let dmin := minimumD dist pontos
          let pprox := nearestPt dist pontos
          let dkm := dmin * (2783/25)
          if T ≤ dkm then
            ⟨especie, labelLonge T, 0, total, some pprox, pontos⟩
          else
            ⟨especie, labelProxima dkm, pyRound (9 * (1 - dkm / T)), total,
              some pprox, pontos⟩

/-- `analisar_ocorrencia_especies` of `pages/1_Analisar_Minhas_Especies.py`:
one row is appended per entry of `df_especies['scientificName']`, in input
order (every branch of the loop body appends exactly one row and proceeds
to the next species).  `search` is `search_gbif_with_retries` applied to
that species' search parameters. -/
def analisar_ocorrencia_especies (search : String → Option GbifResp)
    (within : Pt → Bool) (dist : Pt → ℚ) (T : ℚ)
    (especies : List String) : List Resultado :=
  especies.map fun e => analisarEspeciePages within dist T e (search e)

/-- `analisar_ocorrencia_especies` of `app.py`: same loop with the
`app.py` labels; `search` returning `none` models the `except` branch
around `occ.search`. -/
def analisar_ocorrencia_especies_app (search : String → Option GbifResp)
    (within : Pt → Bool) (dist : Pt → ℚ) (T : ℚ)
    (especies : List String) : List Resultado :=
  especies.map fun e => analisarEspecieApp within dist T e (search e)

/-- The score computed for a below/above-threshold kilometre distance
`dkm` in the no-containment branch (both files, identical arithmetic):
`0` when `dkm >= T`, else `round(9 * (1 - dkm / T))`. -/
def escoreFora (T dkm : ℚ) : ℤ :=
  if T ≤ dkm then 0 else pyRound (9 * (1 - dkm / T))

/-- Outcome of one `occ.search(**params)` call inside
`search_gbif_with_retries`: success, an exception whose text contains
`'Connection'` or `'RemoteDisconnected'` (the transient class), or any
other exception. -/
inductive GbifCallResult where
  | ok (r : GbifResp)
  | transientError
  | otherError
deriving DecidableEq

/-- The `for attempt in range(max_retries)` loop of
`search_gbif_with_retries` (utils/helpers.py lines 14–32), instrumented:
`call attempt` is the outcome of the `occ.search` call on that attempt;
the result triple is (returned value, number of `occ.search` calls made,
list of the `time.sleep` backoff delays `2 ** (attempt + 1)` in order).
Falling off the end of the loop returns `None`. -/
def search_gbif_aux (call : Nat → GbifCallResult) :
    Nat → Nat → Option GbifResp × Nat × List Nat
  | 0, _ => (none, 0, [])
  | fuel + 1, attempt =>
    match call attempt with
    | .ok r => (some r, 1, [])
    | .otherError => (none, 1, [])
    | .transientError =>
      let rest := search_gbif_aux call fuel (attempt + 1)
      (rest.1, rest.2.1 + 1, 2 ^ (attempt + 1) :: rest.2.2)

/-- `search_gbif_with_retries(params, max_retries=4)`:
value returned, attempts starting at 0 with 4 tries. -/
def search_gbif_with_retries (call : Nat → GbifCallResult)
    (max_retries : Nat := 4) : Option GbifResp :=
  (search_gbif_aux call max_retries 0).1

/-- Number of `occ.search` calls `search_gbif_with_retries` makes. -/
def search_gbif_calls (call : Nat → GbifCallResult)
    (max_retries : Nat := 4) : Nat :=
  (search_gbif_aux call max_retries 0).2.1

/-- The backoff delays `search_gbif_with_retries` sleeps, in order. -/
def search_gbif_waits (call : Nat → GbifCallResult)
    (max_retries : Nat := 4) : List Nat :=
  (search_gbif_aux call max_retries 0).2.2

/-- The geometry-preparation phase of `buscar_com_paginacao`
(utils/helpers.py lines 38–46): the shapefile may be absent
(`gdf_area is None`) or its WKT conversion may raise (caught, returns
`[]`); otherwise the loop runs. -/
inductive AreaState where
  | noArea
  | geomError
  | geomOk
deriving DecidableEq

/-- The `while offset < limite_registros` loop of `buscar_com_paginacao`
(utils/helpers.py lines 52–76).  `fetch offset` is the outcome of
`search_gbif_with_retries(params)` at that offset (`none` = the retrying
search returned `None`, i.e. failed; `some page` = the page's
`'results'` list).  Returns the accumulated records together with the
number of page requests issued.  The offset advances by the fixed page
size `passo = 300`. -/
def buscar_loop (fetch : Nat → Option (List GbifRec)) (limite : Nat) :
    Nat → List GbifRec → List GbifRec × Nat
  | offset, acc =>
    if _h : offset < limite then
      match fetch offset with
      | none => (acc, 1)
      | some page =>
        if page.isEmpty then (acc, 1)
        else
          let rest := buscar_loop fetch limite (offset + 300) (acc ++ page)
          (rest.1, rest.2 + 1)
    else (acc, 0)
  termination_by offset _ => limite - offset
  decreasing_by omega

/-- `buscar_com_paginacao(gdf_area, reino_key, limite_registros, ...)`:
early-returns `[]` when there is no area or the geometry processing
raises, otherwise runs the pagination loop from offset 0 and returns
`todos_os_resultados[:limite_registros]`. -/
def buscar_com_paginacao (area : AreaState)
    (fetch : Nat → Option (List GbifRec)) (limite : Nat) : List GbifRec :=
  match area with
  | .noArea => []
  | .geomError => []
  | .geomOk => ((buscar_loop fetch limite 0 []).1).take limite

/-- Number of page requests `buscar_com_paginacao` issues in the
`geomOk` case. -/
def buscar_requests (fetch : Nat → Option (List GbifRec)) (limite : Nat) :
    Nat :=
  (buscar_loop fetch limite 0 []).2

/-- One item of the Flora do Brasil taxon response:
`scientificname?` models `item['taxon']['scientificname']` (absent when
`taxon` is missing or has no such key), `lifeForm?` models
`item['specie_profile']['lifeForm']` (absent when `specie_profile` is
missing/None or has no `lifeForm` key). -/
structure TaxonItemF where
  scientificname? : Option String
  lifeForm? : Option (List String)
deriving DecidableEq

/-- Outcome of the `requests.get` call (plus status check and JSON
decoding) inside `get_categoria_flora_brasil`:
`reqErr` = any `requests.exceptions.RequestException` (connection error,
timeout, or a bad status raised by `raise_for_status`) — caught by the
function itself; `notFound` = HTTP 404; `okJson` = a decoded JSON list;
`okOther` = decoded JSON that is not a (truthy test, then) list;
`badJson` = `.json()` (or the subsequent field access) raises a
non-request exception, which propagates out of the function. -/
inductive HttpOutcome where
  | reqErr
  | notFound
  | okJson (data : List TaxonItemF)
  | okOther
  | badJson
deriving DecidableEq

/-- Helper for `pySplitSpace`: splits a character list at every single
space character, keeping empty pieces, accumulating the current piece
in reverse. -/
def splitSpaceAux : List Char → List Char → List String
  | [], acc => [String.mk acc.reverse]
  | c :: cs, acc =>
    if c = ' ' then String.mk acc.reverse :: splitSpaceAux cs []
    else splitSpaceAux cs (c :: acc)

/-- Python `nome_cientifico.split(' ')`: split at every single space,
keeping empty pieces (so `"a  b".split(' ') == ['a', '', 'b']`). -/
def pySplitSpace (s : String) : List String := splitSpaceAux s.data []

/-- The `for item in data` loop of `get_categoria_flora_brasil`
(utils/helpers.py lines 103–114): the first item whose scientific name is
truthy (non-empty) and starts with the cleaned genus+species name decides
the result — a truthy `lifeForm` list is joined with `", "`, otherwise
`None` is returned ("found the species but without a profile"); when no
item matches, the loop falls through to `return None`. -/
def procurarItem (nomeCmp : String) : List TaxonItemF → Option String
  | [] => none
  | item :: rest =>
    match item.scientificname? with
    | some full =>
      if full ≠ "" ∧ full.startsWith nomeCmp then
        match item.lifeForm? with
        | some lfs => if lfs.isEmpty then none else
            some (String.intercalate ", " lfs)
        | none => none
      else procurarItem nomeCmp rest
    | none => procurarItem nomeCmp rest

/-- `get_categoria_flora_brasil(nome_cientifico)` (utils/helpers.py lines
81–120).  `http genus` is the outcome of the `requests.get` call for that
genus.  `.ok v` is a normal return of `v` (a life form or `None`);
`.error ()` is an exception escaping the function (only non-request
exceptions do, e.g. a JSON decoding error — a
`requests.exceptions.RequestException`, such as a connection error, is
caught and `None` is returned). -/
def get_categoria_flora_brasil (http : String → HttpOutcome)
    (nome : String) : Except Unit (Option String) :=
  let partes := pySplitSpace nome
  if partes.length < 2 then .ok none
  else
    let genus := partes.headD ""
    let nomeCmp := genus ++ " " ++ (partes.drop 1).headD ""
    match http genus with
    | .notFound => .ok none
    | .reqErr => .ok none
    | .badJson => .error ()
    | .okOther => .ok none
    | .okJson data =>
      if data.isEmpty then .ok none else .ok (procurarItem nomeCmp data)

/-- The value stored in `st.session_state.lifeform_cache[name]` by
`get_plant_traits` for one lookup outcome:
`life_form if life_form else 'Não categorizado'` on a normal return
(Python truthiness: `None` and the empty string are falsy), and
`'Erro ao buscar dados'` when the lookup raised. -/
def traitValue : Except Unit (Option String) → String
  | .error _ => "Erro ao buscar dados"
  | .ok none => "Não categorizado"
  | .ok (some s) => if s = "" then "Não categorizado" else s

/-- Python `dict` lookup on an association list (first binding wins; the
lists built here never bind a key twice). -/
def lookupA : List (String × String) → String → Option String
  | [], _ => none
  | (k, v) :: rest, n => if k = n then some v else lookupA rest n

/-- `[name for name in set(_scientific_names) if name and name not in
st.session_state.lifeform_cache]` (utils/helpers.py line 134). -/
def names_to_fetch (cache : List (String × String))
    (names : List String) : List String :=
  names.dedup.filter fun n => decide (n ≠ "" ∧ lookupA cache n = none)

/-- Result of one `get_plant_traits` call: the returned `traits` mapping,
the cache (`st.session_state.lifeform_cache`) after the call, and the
list of names for which `get_categoria_flora_brasil` was actually
invoked (the external-lookup log). -/
structure TraitsOut where
  traits : List (String × String)
  cache : List (String × String)
  fetched : List String
deriving DecidableEq

/-- `get_plant_traits(_scientific_names)` (utils/helpers.py lines
122–163).  `lookupFn` is the guarded `get_categoria_flora_brasil` call
(`.error ()` = it raised); `cache0` is the session cache before the call
(empty at session start).  Names not yet cached are fetched once each and
their outcome is stored; the returned mapping reads every truthy input
name from the updated cache. -/
def get_plant_traits (lookupFn : String → Except Unit (Option String))
    (cache0 : List (String × String)) (names : List String) : TraitsOut :=
  let toFetch := names_to_fetch cache0 names
  let cache1 := cache0 ++ toFetch.map fun n => (n, traitValue (lookupFn n))
  let traits := (names.filter fun n => decide (n ≠ "")).map
    fun n => (n, (lookupA cache1 n).getD "Não categorizado")
  ⟨traits, cache1, toFetch⟩

/-- An axis-aligned rectangle polygon with corners `(xmin, ymin)` and
`(xmax, ymax)`, the concrete `gdf_area` geometry used to instantiate the
shapely oracles in the theorems below. -/
structure Rect where
  xmin : ℚ
  ymin : ℚ
  xmax : ℚ
  ymax : ℚ
deriving DecidableEq

/-- shapely's `within` predicate for a point and a polygon (the predicate
`gpd.sjoin(..., predicate='within')` evaluates): by the DE-9IM
definition, a point is `within` a polygon iff it lies in the polygon's
**interior** — a point on the boundary is *not* within.  For an
axis-aligned rectangle the interior is given by strict inequalities. -/
def Rect.withinPt (R : Rect) (p : Pt) : Bool :=
  decide (R.xmin < p.1 ∧ p.1 < R.xmax ∧ R.ymin < p.2 ∧ p.2 < R.ymax)

/-- shapely's `polygon.distance(point)` for an axis-aligned rectangle,
for points lying inside the closed rectangle (distance 0) or in one of
the four axis-aligned edge strips, where the Euclidean distance
degenerates to `max dx dy` with one of `dx`, `dy` equal to 0.  Every
concrete point used in this file lies in a strip (never in a corner
region), so this equals the exact shapely value on all inputs used. -/
def Rect.distPt (R : Rect) (p : Pt) : ℚ :=
  let dx := max (R.xmin - p.1) (max 0 (p.1 - R.xmax))
  let dy := max (R.ymin - p.2) (max 0 (p.2 - R.ymax))
  max dx dy

/-- Membership in the boundary of the rectangle: on the closed rectangle
and on one of the four edge lines. -/
def Rect.onBoundaryPt (R : Rect) (p : Pt) : Prop :=
  R.xmin ≤ p.1 ∧ p.1 ≤ R.xmax ∧ R.ymin ≤ p.2 ∧ p.2 ≤ R.ymax ∧
    (p.1 = R.xmin ∨ p.1 = R.xmax ∨ p.2 = R.ymin ∨ p.2 = R.ymax)

instance (R : Rect) (p : Pt) : Decidable (R.onBoundaryPt p) := by
  unfold Rect.onBoundaryPt; infer_instance

/-- A concrete page source: full one-record pages at offsets 0 and 300,
failure (`None` from the retrying search) from offset 600 on. -/
def fetchTwoPagesThenFail : Nat → Option (List GbifRec) := fun o =>
  if o = 0 then some [⟨some 1, some 1⟩]
  else if o = 300 then some [⟨some 2, some 2⟩]
  else none

/-- The pages `fetchTwoPagesThenFail` serves, by page index. -/
def pgsTwoPages : Nat → List GbifRec := fun i =>
  if i = 0 then [⟨some 1, some 1⟩] else [⟨some 2, some 2⟩]

/-- A concrete attempt trace: transient failures on attempts 0 and 1,
success on attempt 2. -/
def callsTransientTwice : Nat → GbifCallResult := fun i =>
  if i < 2 then .transientError else .ok ⟨3, []⟩

/-- A concrete attempt trace: a non-transient error on the first attempt. -/
def callsOtherFirst : Nat → GbifCallResult := fun _ => .otherError

/-- A concrete attempt trace: every attempt fails transiently. -/
def callsAllTransient : Nat → GbifCallResult := fun _ => .transientError

theorem floor_le_pyRound (q : ℚ) : ⌊q⌋ ≤ pyRound q := by
  unfold pyRound; split_ifs <;> omega

theorem pyRound_le_floor_add_one (q : ℚ) : pyRound q ≤ ⌊q⌋ + 1 := by
  unfold pyRound; split_ifs <;> omega

theorem pyRound_nonneg {q : ℚ} (h : 0 ≤ q) : 0 ≤ pyRound q := by
  have h0 : (0:ℤ) ≤ ⌊q⌋ := by positivity
  calc (0:ℤ) ≤ ⌊q⌋ := h0
    _ ≤ pyRound q := floor_le_pyRound q

theorem pyRound_mono {q r : ℚ} (h : q ≤ r) : pyRound q ≤ pyRound r := by
  rcases lt_or_eq_of_le (Int.floor_le_floor h) with hf | hf
  · calc pyRound q ≤ ⌊q⌋ + 1 := pyRound_le_floor_add_one q
      _ ≤ ⌊r⌋ := by omega
      _ ≤ pyRound r := floor_le_pyRound r
  · unfold pyRound
    rw [hf]
    have hfr : q - ⌊r⌋ ≤ r - ⌊r⌋ := by
      have := sub_le_sub_right h ((⌊r⌋ : ℚ))
      linarith
    split_ifs <;> first | omega | linarith

theorem minimumD_le (dist : Pt → ℚ) :
    ∀ ps : List Pt, ∀ p ∈ ps, minimumD dist ps ≤ dist p := by
  intro ps
  induction ps with
  | nil => intro p hp; cases hp
  | cons a l ih =>
    intro p hp
    cases l with
    | nil =>
      rcases List.mem_cons.mp hp with h | h
      · subst h; simp [minimumD]
      · cases h
    | cons b m =>
      rcases List.mem_cons.mp hp with h | h
      · subst h; simp [minimumD]
      · calc minimumD dist (a :: b :: m) ≤ minimumD dist (b :: m) :=
              min_le_right _ _
          _ ≤ dist p := ih p h

theorem minimumD_mem (dist : Pt → ℚ) :
    ∀ ps : List Pt, ps ≠ [] → ∃ p ∈ ps, dist p = minimumD dist ps := by
  intro ps
  induction ps with
  | nil => intro h; exact absurd rfl h
  | cons a l ih =>
    intro _
    cases l with
    | nil => exact ⟨a, by simp, by simp [minimumD]⟩
    | cons b m =>
      rcases le_total (dist a) (minimumD dist (b :: m)) with h | h
      · exact ⟨a, by simp, by simp [minimumD, min_eq_left h]⟩
      · obtain ⟨p, hp, hdp⟩ := ih (by simp)
        exact ⟨p, List.mem_cons_of_mem a hp,
          by simp [minimumD, min_eq_right h, hdp]⟩

theorem nearestPt_spec (dist : Pt → ℚ) (ps : List Pt) (h : ps ≠ []) :
    nearestPt dist ps ∈ ps ∧ dist (nearestPt dist ps) = minimumD dist ps := by
  obtain ⟨p, hp, hdp⟩ := minimumD_mem dist ps h
  have hfind : (ps.find? fun q => dist q = minimumD dist ps).isSome := by
    rw [List.find?_isSome]
    exact ⟨p, hp, by simp [hdp]⟩
  obtain ⟨q, hq⟩ := Option.isSome_iff_exists.mp hfind
  have hmem := List.mem_of_find?_eq_some hq
  have hdq := List.find?_some hq
  constructor
  · simpa [nearestPt, hq] using hmem
  · simpa [nearestPt, hq] using of_decide_eq_true hdq

theorem escoreFora_antitone {T d₁ d₂ : ℚ} (hT : 0 < T) (h : d₁ ≤ d₂) :
    escoreFora T d₂ ≤ escoreFora T d₁ := by
  unfold escoreFora
  split_ifs with h₂ h₁ h₁
  · exact le_refl 0
  · apply pyRound_nonneg
    have : d₁ / T < 1 := (div_lt_one hT).mpr (lt_of_not_le h₁)
    nlinarith
  · exact absurd (h₁.trans h) h₂
  · apply pyRound_mono
    have hd : d₁ / T ≤ d₂ / T := by gcongr
    linarith

theorem range_pow_shift (a j : Nat) :
    (2:Nat) ^ (a + 1) :: ((List.range j).map fun i => 2 ^ (a + 1 + i + 1)) =
    (List.range (j + 1)).map fun i => 2 ^ (a + i + 1) := by
  rw [List.range_succ_eq_map, List.map_cons, List.map_map]
  refine congrArg₂ List.cons (by norm_num) ?_
  apply List.map_congr_left
  intro i _
  simp only [Function.comp_apply]
  congr 1
  omega

theorem search_gbif_aux_ok (call : Nat → GbifCallResult) :
    ∀ (j : Nat) (fuel a : Nat) (r : GbifResp), j < fuel →
      (∀ i, i < j → call (a + i) = .transientError) →
      call (a + j) = .ok r →
      search_gbif_aux call fuel a =
        (some r, j + 1, (List.range j).map fun i => 2 ^ (a + i + 1)) := by
  intro j
  induction j with
  | zero =>
    intro fuel a r hj htr hok
    obtain ⟨f, rfl⟩ := Nat.exists_eq_add_of_lt hj
    simp only [Nat.add_zero] at hok
    simp [search_gbif_aux, Nat.add_comm, hok]
  | succ j ih =>
    intro fuel a r hj htr hok
    obtain ⟨f, rfl⟩ := Nat.exists_eq_add_of_lt hj
    have h0 : call a = .transientError := by
      have := htr 0 (Nat.succ_pos j); simpa using this
    have hrec := ih (j + 1 + f) (a + 1) r (by omega)
      (fun i hi => by
        have := htr (i + 1) (by omega)
        simpa [Nat.add_assoc, Nat.add_comm 1 i] using this)
      (by simpa [Nat.add_assoc, Nat.add_comm 1 j] using hok)
    show search_gbif_aux call (j + 1 + f + 1) a = _
    rw [search_gbif_aux]
    simp only [h0]
    rw [hrec]
    simp only [Prod.mk.injEq]
    exact ⟨trivial, trivial, range_pow_shift a _⟩

theorem search_gbif_aux_other (call : Nat → GbifCallResult) :
    ∀ (j : Nat) (fuel a : Nat), j < fuel →
      (∀ i, i < j → call (a + i) = .transientError) →
      call (a + j) = .otherError →
      search_gbif_aux call fuel a =
        (none, j + 1, (List.range j).map fun i => 2 ^ (a + i + 1)) := by
  intro j
  induction j with
  | zero =>
    intro fuel a hj htr hbad
    obtain ⟨f, rfl⟩ := Nat.exists_eq_add_of_lt hj
    simp only [Nat.add_zero] at hbad
    simp [search_gbif_aux, Nat.add_comm, hbad]
  | succ j ih =>
    intro fuel a hj htr hbad
    obtain ⟨f, rfl⟩ := Nat.exists_eq_add_of_lt hj
    have h0 : call a = .transientError := by
      have := htr 0 (Nat.succ_pos j); simpa using this
    have hrec := ih (j + 1 + f) (a + 1) (by omega)
      (fun i hi => by
        have := htr (i + 1) (by omega)
        simpa [Nat.add_assoc, Nat.add_comm 1 i] using this)
      (by simpa [Nat.add_assoc, Nat.add_comm 1 j] using hbad)
    show search_gbif_aux call (j + 1 + f + 1) a = _
    rw [search_gbif_aux]
    simp only [h0]
    rw [hrec]
    simp only [Prod.mk.injEq]
    exact ⟨trivial, trivial, range_pow_shift a _⟩

theorem search_gbif_aux_exhaust (call : Nat → GbifCallResult) :
    ∀ (fuel a : Nat),
      (∀ i, i < fuel → call (a + i) = .transientError) →
      search_gbif_aux call fuel a =
        (none, fuel, (List.range fuel).map fun i => 2 ^ (a + i + 1)) := by
  intro fuel
  induction fuel with
  | zero => intro a _; simp [search_gbif_aux]
  | succ f ih =>
    intro a htr
    have h0 : call a = .transientError := by
      have := htr 0 (Nat.succ_pos f); simpa using this
    have hrec := ih (a + 1) (fun i hi => by
      have := htr (i + 1) (by omega)
      simpa [Nat.add_assoc, Nat.add_comm 1 i] using this)
    rw [search_gbif_aux]
    simp only [h0]
    rw [hrec]
    simp only [Prod.mk.injEq]
    exact ⟨trivial, trivial, range_pow_shift a _⟩

theorem buscar_loop_requests_bound (fetch : Nat → Option (List GbifRec))
    (limite : Nat) :
    ∀ offset acc, 300 * (buscar_loop fetch limite offset acc).2 ≤
      (limite - offset) + 299 := by
  intro offset acc
  induction offset, acc using buscar_loop.induct fetch limite with
  | case1 offset acc h hf =>
    rw [buscar_loop]
    simp only [dif_pos h, hf]
    omega
  | case2 offset acc h page hf hemp =>
    rw [buscar_loop]
    simp only [dif_pos h, hf, if_pos hemp]
    omega
  | case3 offset acc h page hf hemp ih =>
    rw [buscar_loop]
    simp only [dif_pos h, hf, if_neg hemp]
    omega
  | case4 offset acc h =>
    rw [buscar_loop]
    simp only [dif_neg h]
    omega

theorem buscar_loop_at_cap (fetch : Nat → Option (List GbifRec))
    (limite offset : Nat) (acc : List GbifRec) (h : ¬ offset < limite) :
    buscar_loop fetch limite offset acc = (acc, 0) := by
  rw [buscar_loop]; simp [h]

theorem buscar_loop_empty_page (fetch : Nat → Option (List GbifRec))
    (limite offset : Nat) (acc : List GbifRec) (h : offset < limite)
    (hf : fetch offset = some []) :
    buscar_loop fetch limite offset acc = (acc, 1) := by
  rw [buscar_loop]; simp [h, hf]

theorem buscar_loop_fail (fetch : Nat → Option (List GbifRec))
    (limite offset : Nat) (acc : List GbifRec) (h : offset < limite)
    (hf : fetch offset = none) :
    buscar_loop fetch limite offset acc = (acc, 1) := by
  rw [buscar_loop]; simp [h, hf]

theorem buscar_loop_step (fetch : Nat → Option (List GbifRec))
    (limite offset : Nat) (acc page : List GbifRec) (h : offset < limite)
    (hf : fetch offset = some page) (hne : page ≠ []) :
    buscar_loop fetch limite offset acc =
      ((buscar_loop fetch limite (offset + 300) (acc ++ page)).1,
       (buscar_loop fetch limite (offset + 300) (acc ++ page)).2 + 1) := by
  rw [buscar_loop]
  simp [h, hf, List.isEmpty_iff, hne]

theorem lookupA_append (a b : List (String × String)) (n : String) :
    lookupA (a ++ b) n =
      ((lookupA a n).rec (lookupA b n) fun v => some v : Option String) := by
  induction a with
  | nil => simp [lookupA]
  | cons kv rest ih =>
    obtain ⟨k, v⟩ := kv
    by_cases h : k = n
    · simp [lookupA, h]
    · simp [lookupA, h, ih]

theorem lookupA_map_self (g : String → String) (l : List String)
    (n : String) :
    lookupA (l.map fun m => (m, g m)) n =
      if n ∈ l then some (g n) else none := by
  induction l with
  | nil => simp [lookupA]
  | cons a rest ih =>
    by_cases h : a = n
    · subst h; simp [lookupA]
    · simp [lookupA, h, ih, Ne.symm h]

theorem names_to_fetch_nodup (cache : List (String × String))
    (names : List String) : (names_to_fetch cache names).Nodup :=
  (List.nodup_dedup names).filter _

theorem mem_names_to_fetch (cache : List (String × String))
    (names : List String) (n : String) :
    n ∈ names_to_fetch cache names ↔
      n ∈ names ∧ n ≠ "" ∧ lookupA cache n = none := by
  simp [names_to_fetch, List.mem_filter, List.mem_dedup]

theorem get_plant_traits_lookup (lookupFn : String → Except Unit (Option String))
    (cache0 : List (String × String)) (names : List String) (n : String)
    (hn : n ≠ "") (hmem : n ∈ names) :
    lookupA (get_plant_traits lookupFn cache0 names).traits n =
      some ((lookupA (get_plant_traits lookupFn cache0 names).cache n).getD
        "Não categorizado") := by
  unfold get_plant_traits
  simp only []
  rw [lookupA_map_self (fun n =>
    (lookupA (cache0 ++ (names_to_fetch cache0 names).map
      fun m => (m, traitValue (lookupFn m))) n).getD "Não categorizado")]
  simp [List.mem_filter, hmem, hn]

theorem get_plant_traits_cache_new
    (lookupFn : String → Except Unit (Option String))
    (cache0 : List (String × String)) (names : List String) (n : String)
    (hn : n ≠ "") (hmem : n ∈ names) (hmiss : lookupA cache0 n = none) :
    lookupA (get_plant_traits lookupFn cache0 names).cache n =
      some (traitValue (lookupFn n)) := by
  unfold get_plant_traits
  simp only []
  rw [lookupA_append, hmiss, lookupA_map_self]
  simp [mem_names_to_fetch, hmem, hn, hmiss]

theorem get_plant_traits_cache_old
    (lookupFn : String → Except Unit (Option String))
    (cache0 : List (String × String)) (names : List String) (n : String)
    (v : String) (hhit : lookupA cache0 n = some v) :
    lookupA (get_plant_traits lookupFn cache0 names).cache n = some v := by
  unfold get_plant_traits
  simp only []
  rw [lookupA_append, hhit]

theorem Rect.withinPt_eq_false_of_onBoundary (R : Rect) (p : Pt)
    (h : R.onBoundaryPt p) : R.withinPt p = false := by
  obtain ⟨h1, h2, h3, h4, h5⟩ := h
  simp only [Rect.withinPt, decide_eq_false_iff_not]
  rintro ⟨g1, g2, g3, g4⟩
  rcases h5 with h | h | h | h <;> linarith

theorem Rect.distPt_eq_zero_of_mem (R : Rect) (p : Pt)
    (h1 : R.xmin ≤ p.1) (h2 : p.1 ≤ R.xmax) (h3 : R.ymin ≤ p.2)
    (h4 : p.2 ≤ R.ymax) : R.distPt p = 0 := by
  unfold Rect.distPt
  have e1 : max 0 (p.1 - R.xmax) = 0 := max_eq_left (by linarith)
  have e2 : max 0 (p.2 - R.ymax) = 0 := max_eq_left (by linarith)
  rw [e1, e2]
  have f1 : max (R.xmin - p.1) 0 = 0 := max_eq_right (by linarith)
  have f2 : max (R.ymin - p.2) 0 = 0 := max_eq_right (by linarith)
  rw [f1, f2]
  simp

/-- C1: the batch analysis returns exactly one result record per input
query, in input order; a search failure for one species (the retrying
search returned `None`) produces a labeled failure row (`"Falha na
busca"`) with sentinel score `-1` and does not abort the run — every
other entry is still the analysis of its own species, and the result
count equals the input count. -/
theorem batch_one_result_per_query (search : String → Option GbifResp)
    (within : Pt → Bool) (dist : Pt → ℚ) (T : ℚ) (especies : List String) :
    (analisar_ocorrencia_especies search within dist T especies).length =
      especies.length ∧
    (∀ i : Nat,
      (analisar_ocorrencia_especies search within dist T especies).get? i =
        (especies.get? i).map fun e =>
          analisarEspeciePages within dist T e (search e)) ∧
    (∀ i : Nat, ∀ e : String, especies.get? i = some e → search e = none →
      (analisar_ocorrencia_especies search within dist T especies).get? i =
        some ⟨e, "Falha na busca", -1, 0, none, []⟩) := by
  refine ⟨List.length_map _ _, fun i => List.get?_map _ _ _, ?_⟩
  intro i e hi hfail
  rw [analisar_ocorrencia_especies, List.get?_map, hi]
  simp [analisarEspeciePages, hfail]

/-- Witness for C1 at a concrete batch: three species, the middle
search fails, the others succeed with an empty result set. -/
theorem batch_one_result_per_query_witness :
    (analisar_ocorrencia_especies
        (fun e => if e = "b" then none else some ⟨7, []⟩)
        (fun _ => false) (fun _ => 0) 100 ["a", "b", "c"]).length = 3 ∧
    (analisar_ocorrencia_especies
        (fun e => if e = "b" then none else some ⟨7, []⟩)
        (fun _ => false) (fun _ => 0) 100 ["a", "b", "c"]).get? 1 =
      some ⟨"b", "Falha na busca", -1, 0, none, []⟩ := by
  constructor
  · exact (batch_one_result_per_query
      (fun e => if e = "b" then none else some ⟨7, []⟩)
      (fun _ => false) (fun _ => 0) 100 ["a", "b", "c"]).1
  · exact (batch_one_result_per_query
      (fun e => if e = "b" then none else some ⟨7, []⟩)
      (fun _ => false) (fun _ => 0) 100 ["a", "b", "c"]).2.2 1 "b" rfl
      (by simp)

/-- C2: for every response whose valid-coordinate point list has at
least one point contained in the area, the result (in both copies of
`analisar_ocorrencia_especies`) has score exactly 10 and the
inside-area label reporting the contained count, regardless of the
other points, and the representative coordinate is the first contained
point in source order. -/
theorem analisar_dentro_score10 (within : Pt → Bool) (dist : Pt → ℚ)
    (T : ℚ) (especie : String) (dados : GbifResp)
    (hw : (coordsOf dados.results).filter within ≠ []) :
    ((analisarEspecieApp within dist T especie
        (some dados)).escore_proximidade = 10 ∧
      (analisarEspecieApp within dist T especie
        (some dados)).ocorrencia_na_regiao =
        labelDentro ((coordsOf dados.results).filter within).length ∧
      (analisarEspecieApp within dist T especie (some dados)).coordenada? =
        ((coordsOf dados.results).filter within).head?) ∧
    ((analisarEspeciePages within dist T especie
        (some dados)).escore_proximidade = 10 ∧
      (analisarEspeciePages within dist T especie
        (some dados)).ocorrencia_na_regiao =
        labelDentro ((coordsOf dados.results).filter within).length ∧
      (analisarEspeciePages within dist T especie (some dados)).coordenada? =
        ((coordsOf dados.results).filter within).head?) := by
  have hpontos : coordsOf dados.results ≠ [] := by
    intro h0
    exact hw (by simp [h0])
  have hres : dados.results ≠ [] := by
    intro h0
    exact hpontos (by simp [coordsOf, h0])
  obtain ⟨q, rest, hfe⟩ := List.exists_cons_of_ne_nil hw
  constructor <;>
    simp [analisarEspecieApp, analisarEspeciePages, List.isEmpty_iff,
      hres, hpontos, hfe]

/-- Witness for C2: a 2-point response against the square with corners
(0,0) and (10,10); the second point is the only contained one, the
first lies outside. -/
theorem analisar_dentro_score10_witness :
    ((coordsOf [⟨some 20, some 20⟩, ⟨some 5, some 5⟩]).filter
        (Rect.withinPt ⟨0, 0, 10, 10⟩) ≠ []) ∧
    (analisarEspecieApp (Rect.withinPt ⟨0, 0, 10, 10⟩)
        (Rect.distPt ⟨0, 0, 10, 10⟩) 100 "sp"
        (some ⟨2, [⟨some 20, some 20⟩, ⟨some 5, some 5⟩]⟩)).coordenada? =
      some (5, 5) := by
  have hin : Rect.withinPt ⟨0, 0, 10, 10⟩ ((5:ℚ), (5:ℚ)) = true := by
    simp only [Rect.withinPt, decide_eq_true_eq]
    norm_num
  have hout : Rect.withinPt ⟨0, 0, 10, 10⟩ ((20:ℚ), (20:ℚ)) = false := by
    simp only [Rect.withinPt, decide_eq_false_iff_not]
    norm_num
  have hfe : (coordsOf [⟨some 20, some 20⟩, ⟨some 5, some 5⟩]).filter
      (Rect.withinPt ⟨0, 0, 10, 10⟩) = [((5:ℚ), (5:ℚ))] := by
    simp [coordsOf, List.filter, hin, hout]
  refine ⟨by rw [hfe]; simp, ?_⟩
  have := (analisar_dentro_score10 (Rect.withinPt ⟨0, 0, 10, 10⟩)
    (Rect.distPt ⟨0, 0, 10, 10⟩) 100 "sp"
    ⟨2, [⟨some 20, some 20⟩, ⟨some 5, some 5⟩]⟩
    (by rw [hfe]; simp)).1.2.2
  rw [this, hfe]
  rfl

/-- C3: for every non-empty point set with no contained point, letting
`d` be the minimum per-point distance (degrees) times the fixed factor
111.32 km/degree: if `d ≥ T` the score is 0 with the far label,
otherwise the score is `round(9 * (1 - d/T))`; the score is
monotonically non-increasing in the distance; and the representative
coordinate is the (first) nearest point — in both copies of
`analisar_ocorrencia_especies`. -/
theorem analisar_fora_linear_decay (within : Pt → Bool) (dist : Pt → ℚ)
    (T : ℚ) (especie : String) (dados : GbifResp) (hT : 0 < T)
    (hpts : coordsOf dados.results ≠ [])
    (hfora : (coordsOf dados.results).filter within = []) :
    (analisarEspecieApp within dist T especie
        (some dados)).escore_proximidade =
      escoreFora T (minimumD dist (coordsOf dados.results) * (2783/25)) ∧
    (analisarEspeciePages within dist T especie
        (some dados)).escore_proximidade =
      escoreFora T (minimumD dist (coordsOf dados.results) * (2783/25)) ∧
    (T ≤ minimumD dist (coordsOf dados.results) * (2783/25) →
      escoreFora T (minimumD dist (coordsOf dados.results) * (2783/25)) = 0 ∧
      (analisarEspecieApp within dist T especie
          (some dados)).ocorrencia_na_regiao = labelDistante T ∧
      (analisarEspeciePages within dist T especie
          (some dados)).ocorrencia_na_regiao = labelLonge T) ∧
    (minimumD dist (coordsOf dados.results) * (2783/25) < T →
      escoreFora T (minimumD dist (coordsOf dados.results) * (2783/25)) =
        pyRound (9 * (1 -
          minimumD dist (coordsOf dados.results) * (2783/25) / T))) ∧
    (analisarEspecieApp within dist T especie (some dados)).coordenada? =
      some (nearestPt dist (coordsOf dados.results)) ∧
    (analisarEspeciePages within dist T especie (some dados)).coordenada? =
      some (nearestPt dist (coordsOf dados.results)) ∧
    nearestPt dist (coordsOf dados.results) ∈ coordsOf dados.results ∧
    dist (nearestPt dist (coordsOf dados.results)) =
      minimumD dist (coordsOf dados.results) ∧
    (∀ p ∈ coordsOf dados.results,
      minimumD dist (coordsOf dados.results) ≤ dist p) ∧
    (∀ d₁ d₂ : ℚ, d₁ ≤ d₂ → escoreFora T d₂ ≤ escoreFora T d₁) := by
  have hres : dados.results ≠ [] := by
    intro h0
    exact hpts (by simp [coordsOf, h0])
  obtain ⟨hnear_mem, hnear_dist⟩ := nearestPt_spec dist _ hpts
  refine ⟨?_, ?_, ?_, ?_, ?_, ?_, hnear_mem, hnear_dist,
    minimumD_le dist _, fun d₁ d₂ h => escoreFora_antitone hT h⟩
  · by_cases hcase : T ≤ minimumD dist (coordsOf dados.results) * (2783/25) <;>
      · simp [analisarEspecieApp, escoreFora, List.isEmpty_iff, hres, hpts,
          hfora, hcase]
        try split_ifs <;> rfl
  · by_cases hcase : T ≤ minimumD dist (coordsOf dados.results) * (2783/25) <;>
      simp [analisarEspeciePages, escoreFora, List.isEmpty_iff, hres, hpts,
        hfora, hcase]
  · intro hcase
    refine ⟨by simp [escoreFora, hcase], ?_, ?_⟩ <;>
      simp [analisarEspecieApp, analisarEspeciePages, List.isEmpty_iff,
        hres, hpts, hfora, hcase]
  · intro hcase
    simp [escoreFora, not_le.mpr hcase]
  · simp [analisarEspecieApp, List.isEmpty_iff, hres, hpts, hfora]
    split_ifs <;> rfl
  · simp [analisarEspeciePages, List.isEmpty_iff, hres, hpts, hfora]
    split_ifs <;> rfl

/-- Witness for C3: two points outside the square with corners (0,0)
and (10,10), at degree-distances 2 and 20; threshold 500 km; the nearest
point (12,5) is the representative. -/
theorem analisar_fora_linear_decay_witness :
    (analisarEspecieApp (Rect.withinPt ⟨0, 0, 10, 10⟩)
        (Rect.distPt ⟨0, 0, 10, 10⟩) 500 "sp"
        (some ⟨2, [⟨some 12, some 5⟩, ⟨some 30, some 5⟩]⟩)).coordenada? =
      some (12, 5) ∧
    escoreFora 500 (minimumD (Rect.distPt ⟨0, 0, 10, 10⟩)
      (coordsOf [⟨some 12, some 5⟩, ⟨some 30, some 5⟩]) * (2783/25)) =
      pyRound (9 * (1 - minimumD (Rect.distPt ⟨0, 0, 10, 10⟩)
        (coordsOf [⟨some 12, some 5⟩, ⟨some 30, some 5⟩]) * (2783/25) / 500)) := by
  have hw1 : Rect.withinPt ⟨0, 0, 10, 10⟩ ((12:ℚ), (5:ℚ)) = false := by
    simp only [Rect.withinPt, decide_eq_false_iff_not]
    norm_num
  have hw2 : Rect.withinPt ⟨0, 0, 10, 10⟩ ((30:ℚ), (5:ℚ)) = false := by
    simp only [Rect.withinPt, decide_eq_false_iff_not]
    norm_num
  have hd1 : Rect.distPt ⟨0, 0, 10, 10⟩ ((12:ℚ), (5:ℚ)) = 2 := by
    simp only [Rect.distPt]
    norm_num [max_def]
  have hd2 : Rect.distPt ⟨0, 0, 10, 10⟩ ((30:ℚ), (5:ℚ)) = 20 := by
    simp only [Rect.distPt]
    norm_num [max_def]
  have hco : coordsOf [⟨some 12, some 5⟩, ⟨some 30, some 5⟩] =
      [((12:ℚ), (5:ℚ)), ((30:ℚ), (5:ℚ))] := by
    simp [coordsOf]
  have hminL : minimumD (Rect.distPt ⟨0, 0, 10, 10⟩)
      [((12:ℚ), (5:ℚ)), ((30:ℚ), (5:ℚ))] = 2 := by
    simp [minimumD, hd1, hd2]
    norm_num
  have hmin : minimumD (Rect.distPt ⟨0, 0, 10, 10⟩)
      (coordsOf [⟨some 12, some 5⟩, ⟨some 30, some 5⟩]) = 2 := by
    rw [hco, hminL]
  have h := analisar_fora_linear_decay (Rect.withinPt ⟨0, 0, 10, 10⟩)
    (Rect.distPt ⟨0, 0, 10, 10⟩) 500 "sp"
    ⟨2, [⟨some 12, some 5⟩, ⟨some 30, some 5⟩]⟩ (by norm_num)
    (by rw [hco]; simp)
    (by rw [hco]; simp [List.filter, hw1, hw2])
  refine ⟨?_, ?_⟩
  · rw [h.2.2.2.2.1]
    have : nearestPt (Rect.distPt ⟨0, 0, 10, 10⟩)
        (coordsOf [⟨some 12, some 5⟩, ⟨some 30, some 5⟩]) = (12, 5) := by
      rw [hco]
      simp [nearestPt, List.find?, hd1, hminL]
    rw [this]
  · exact h.2.2.2.1 (by rw [hmin]; norm_num)

/-- C4: the paginated capped fetch stops when the accumulated offset
reaches the cap or the source returns an empty page, issues at most
`ceil(limite / 300)` page requests, and never returns more than
`limite` records. -/
theorem buscar_com_paginacao_cap (fetch : Nat → Option (List GbifRec))
    (limite : Nat) :
    (buscar_com_paginacao .geomOk fetch limite).length ≤ limite ∧
    buscar_requests fetch limite ≤ (limite + 299) / 300 ∧
    (∀ offset acc, ¬ offset < limite →
      buscar_loop fetch limite offset acc = (acc, 0)) ∧
    (∀ offset acc, offset < limite → fetch offset = some [] →
      buscar_loop fetch limite offset acc = (acc, 1)) := by
  refine ⟨List.length_take_le _ _, ?_, buscar_loop_at_cap fetch limite,
    buscar_loop_empty_page fetch limite⟩
  rw [Nat.le_div_iff_mul_le (by norm_num : 0 < 300)]
  have := buscar_loop_requests_bound fetch limite 0 []
  unfold buscar_requests
  omega

/-- Witness for C4 at a concrete source and cap 700: request count is
at most `ceil(700/300) = 3`, the loop is a no-op at an offset past the
cap, and stops on an empty page at offset 0. -/
theorem buscar_com_paginacao_cap_witness :
    (buscar_com_paginacao .geomOk (fun _ => some []) 700).length ≤ 700 ∧
    buscar_requests (fun _ => some []) 700 ≤ (700 + 299) / 300 ∧
    buscar_loop (fun _ => some []) 700 900 [] = ([], 0) ∧
    buscar_loop (fun _ => some []) 700 0 [] = ([], 1) := by
  have h := buscar_com_paginacao_cap (fun _ => some []) 700
  exact ⟨h.1, h.2.1, h.2.2.1 900 [] (by norm_num), h.2.2.2 0 [] (by norm_num) rfl⟩

theorem buscar_loop_pages (fetch : Nat → Option (List GbifRec))
    (limite : Nat) :
    ∀ (j : Nat) (pgs : Nat → List GbifRec) (offset : Nat)
      (acc : List GbifRec),
      offset + 300 * j < limite →
      (∀ i, i < j → fetch (offset + 300 * i) = some (pgs i) ∧ pgs i ≠ []) →
      fetch (offset + 300 * j) = none →
      buscar_loop fetch limite offset acc =
        (acc ++ ((List.range j).map pgs).join, j + 1) := by
  intro j
  induction j with
  | zero =>
    intro pgs offset acc hcap hsucc hfail
    simp only [Nat.mul_zero, Nat.add_zero] at hcap hfail
    rw [buscar_loop_fail fetch limite offset acc hcap hfail]
    simp
  | succ j ih =>
    intro pgs offset acc hcap hsucc hfail
    obtain ⟨h0, h0ne⟩ := hsucc 0 (Nat.succ_pos j)
    simp only [Nat.mul_zero, Nat.add_zero] at h0
    rw [buscar_loop_step fetch limite offset acc (pgs 0) (by omega) h0 h0ne]
    have hrec := ih (fun i => pgs (i + 1)) (offset + 300) (acc ++ pgs 0)
      (by omega)
      (fun i hi => by
        have harg : offset + 300 + 300 * i = offset + 300 * (i + 1) := by
          ring
        rw [harg]
        exact hsucc (i + 1) (by omega))
      (by
        have harg : offset + 300 + 300 * j = offset + 300 * (j + 1) := by
          ring
        rw [harg]
        exact hfail)
    rw [hrec]
    rw [List.range_succ_eq_map]
    simp [List.map_map, List.append_assoc, Function.comp,
      Nat.succ_eq_add_one]
    rfl

/-- C10: for every paginated fetch in which the first `j` page requests
succeed with non-empty pages and the `(j+1)`-st (at offset `300 * j`,
still below the cap) fails after all retries
(`search_gbif_with_retries` returned `None`), the fetch returns exactly
the records accumulated from the `j` successful pages, truncated to the
cap, as a normal list — the failure only breaks the loop. -/
theorem buscar_com_paginacao_keeps_pages
    (fetch : Nat → Option (List GbifRec)) (limite : Nat) (j : Nat)
    (pgs : Nat → List GbifRec)
    (hsucc : ∀ i, i < j → fetch (300 * i) = some (pgs i) ∧ pgs i ≠ [])
    (hfail : fetch (300 * j) = none) (hcap : 300 * j < limite) :
    buscar_com_paginacao .geomOk fetch limite =
      (((List.range j).map pgs).join).take limite := by
  unfold buscar_com_paginacao
  rw [buscar_loop_pages fetch limite j pgs 0 [] (by omega)
    (by simpa using hsucc) (by simpa using hfail)]
  simp

/-- Witness for C10: two full pages then a failed request, cap 1000. -/
theorem buscar_com_paginacao_keeps_pages_witness :
    buscar_com_paginacao .geomOk fetchTwoPagesThenFail 1000 =
      (((List.range 2).map pgsTwoPages).join).take 1000 := by
  exact buscar_com_paginacao_keeps_pages fetchTwoPagesThenFail 1000 2
    pgsTwoPages
    (by
      intro i hi
      interval_cases i
      · exact ⟨rfl, by simp [pgsTwoPages]⟩
      · exact ⟨rfl, by simp [pgsTwoPages]⟩)
    rfl (by norm_num)

/-- C5: a transient-connection failure on the first `j` attempts
followed by success on attempt `j+1` (of at most 4) yields the normal
result with `j+1` calls and backoff delays `2^(a+1)` doubling each
attempt; any other failure class stops immediately with a `None`
result; and 4 transient failures in a row yield exactly one `None`
outcome (not an exception) after 4 calls with delays 2, 4, 8, 16. -/
theorem search_gbif_with_retries_spec :
    (∀ (call : Nat → GbifCallResult) (j : Nat) (r : GbifResp), j < 4 →
      (∀ i, i < j → call i = .transientError) → call j = .ok r →
      search_gbif_with_retries call = some r ∧
      search_gbif_calls call = j + 1 ∧
      search_gbif_waits call = (List.range j).map fun i => 2 ^ (i + 1)) ∧
    (∀ (call : Nat → GbifCallResult) (j : Nat), j < 4 →
      (∀ i, i < j → call i = .transientError) → call j = .otherError →
      search_gbif_with_retries call = none ∧
      search_gbif_calls call = j + 1) ∧
    (∀ call : Nat → GbifCallResult,
      (∀ i, i < 4 → call i = .transientError) →
      search_gbif_with_retries call = none ∧
      search_gbif_calls call = 4 ∧
      search_gbif_waits call = [2, 4, 8, 16]) := by
  refine ⟨?_, ?_, ?_⟩
  · intro call j r hj htr hok
    have h := search_gbif_aux_ok call j 4 0 r hj (by simpa using htr)
      (by simpa using hok)
    unfold search_gbif_with_retries search_gbif_calls search_gbif_waits
    rw [h]
    exact ⟨rfl, rfl, by simp⟩
  · intro call j hj htr hbad
    have h := search_gbif_aux_other call j 4 0 hj (by simpa using htr)
      (by simpa using hbad)
    unfold search_gbif_with_retries search_gbif_calls
    rw [h]
    exact ⟨rfl, rfl⟩
  · intro call htr
    have h := search_gbif_aux_exhaust call 4 0 (by simpa using htr)
    unfold search_gbif_with_retries search_gbif_calls search_gbif_waits
    rw [h]
    refine ⟨rfl, rfl, ?_⟩
    simp [List.range_succ]

/-- Witness for C5: the three retry behaviours at concrete attempt
traces. -/
theorem search_gbif_with_retries_spec_witness :
    (search_gbif_with_retries callsTransientTwice = some ⟨3, []⟩ ∧
      search_gbif_calls callsTransientTwice = 3 ∧
      search_gbif_waits callsTransientTwice = [2, 4]) ∧
    (search_gbif_with_retries callsOtherFirst = none ∧
      search_gbif_calls callsOtherFirst = 1) ∧
    (search_gbif_with_retries callsAllTransient = none ∧
      search_gbif_calls callsAllTransient = 4 ∧
      search_gbif_waits callsAllTransient = [2, 4, 8, 16]) := by
  refine ⟨?_, ?_, ?_⟩
  · have h := search_gbif_with_retries_spec.1 callsTransientTwice 2 ⟨3, []⟩
      (by norm_num) (fun i hi => by simp [callsTransientTwice, hi])
      (by simp [callsTransientTwice])
    exact ⟨h.1, h.2.1, by rw [h.2.2]; simp [List.range_succ]⟩
  · exact search_gbif_with_retries_spec.2.1 callsOtherFirst 0 (by norm_num)
      (fun i hi => by omega) rfl
  · exact search_gbif_with_retries_spec.2.2 callsAllTransient
      (fun i _ => rfl)

/-- C6 (amended): `gpd.sjoin(..., predicate='within')` tests interior
membership, so a point lying exactly on the boundary of the area does
NOT count as contained; a point set whose only candidate lies on the
boundary takes the distance branch with distance 0 and (for a positive
threshold) is classified very-near with score `round(9) = 9`, not
inside-area with 10. -/
theorem analisar_boundary_very_near (R : Rect) (T : ℚ) (especie : String)
    (p : Pt) (c : Nat) (hT : 0 < T) (hb : R.onBoundaryPt p) :
    R.withinPt p = false ∧
    (analisarEspecieApp R.withinPt R.distPt T especie
        (some ⟨c, [⟨some p.1, some p.2⟩]⟩)).escore_proximidade = 9 ∧
    (analisarEspecieApp R.withinPt R.distPt T especie
        (some ⟨c, [⟨some p.1, some p.2⟩]⟩)).ocorrencia_na_regiao =
      "Muito Próxima (0 m)" := by
  have hw := R.withinPt_eq_false_of_onBoundary p hb
  obtain ⟨h1, h2, h3, h4, _⟩ := hb
  have hd := R.distPt_eq_zero_of_mem p h1 h2 h3 h4
  have h9 : pyRound 9 = 9 := by norm_num [pyRound]
  have h0 : pyRound 0 = 0 := by norm_num [pyRound]
  have hTn : ¬ T ≤ 0 := not_le.mpr hT
  refine ⟨hw, ?_, ?_⟩ <;>
    · simp [analisarEspecieApp, coordsOf, List.filter, hw, minimumD, hd, hTn,
        h9, h0, labelMuitoProxima, fmt0]
      try rfl

/-- C6 counterexample: the single point (0,5) lies exactly on the left
edge of the square with corners (0,0) and (10,10); the claim says it is
classified inside-area with score 10, but the code scores it 9 with the
very-near label. -/
theorem analisar_boundary_counterexample :
    Rect.onBoundaryPt ⟨0, 0, 10, 10⟩ ((0:ℚ), (5:ℚ)) ∧
    (analisarEspecieApp (Rect.withinPt ⟨0, 0, 10, 10⟩)
        (Rect.distPt ⟨0, 0, 10, 10⟩) 100 "sp"
        (some ⟨1, [⟨some 0, some 5⟩]⟩)).escore_proximidade = 9 ∧
    ¬ (analisarEspecieApp (Rect.withinPt ⟨0, 0, 10, 10⟩)
        (Rect.distPt ⟨0, 0, 10, 10⟩) 100 "sp"
        (some ⟨1, [⟨some 0, some 5⟩]⟩)).escore_proximidade = 10 ∧
    (analisarEspecieApp (Rect.withinPt ⟨0, 0, 10, 10⟩)
        (Rect.distPt ⟨0, 0, 10, 10⟩) 100 "sp"
        (some ⟨1, [⟨some 0, some 5⟩]⟩)).ocorrencia_na_regiao =
      "Muito Próxima (0 m)" := by
  have hw : Rect.withinPt ⟨0, 0, 10, 10⟩ ((0:ℚ), (5:ℚ)) = false := by
    simp only [Rect.withinPt, decide_eq_false_iff_not]
    norm_num
  have hd : Rect.distPt ⟨0, 0, 10, 10⟩ ((0:ℚ), (5:ℚ)) = 0 := by
    simp only [Rect.distPt]
    norm_num [max_def]
  have h9 : pyRound 9 = 9 := by norm_num [pyRound]
  have h0 : pyRound 0 = 0 := by norm_num [pyRound]
  have hT100 : ¬ (100:ℚ) ≤ 0 := by norm_num
  refine ⟨by constructor <;> norm_num, ?_, ?_, ?_⟩ <;>
    · simp [analisarEspecieApp, coordsOf, List.filter, hw, minimumD, hd,
        h9, h0, hT100, labelMuitoProxima, fmt0]
      try first | rfl | omega

/-- Witness for the amended C6 theorem: the point (0,5) on the left
edge of the square with corners (0,0) and (10,10), threshold 100. -/
theorem analisar_boundary_very_near_witness :
    Rect.withinPt ⟨0, 0, 10, 10⟩ ((0:ℚ), (5:ℚ)) = false ∧
    (analisarEspecieApp (Rect.withinPt ⟨0, 0, 10, 10⟩)
        (Rect.distPt ⟨0, 0, 10, 10⟩) 100 "x"
        (some ⟨2, [⟨some 0, some 5⟩]⟩)).escore_proximidade = 9 ∧
    (analisarEspecieApp (Rect.withinPt ⟨0, 0, 10, 10⟩)
        (Rect.distPt ⟨0, 0, 10, 10⟩) 100 "x"
        (some ⟨2, [⟨some 0, some 5⟩]⟩)).ocorrencia_na_regiao =
      "Muito Próxima (0 m)" :=
  analisar_boundary_very_near ⟨0, 0, 10, 10⟩ 100 "x" (0, 5) 2
    (by norm_num) (by constructor <;> norm_num)

theorem example_meio_grau_eval :
    analisarEspecieApp (Rect.withinPt ⟨0, 0, 1, 1⟩)
        (Rect.distPt ⟨0, 0, 1, 1⟩) 100 "sp"
        (some ⟨1, [⟨some (3/2), some (1/2)⟩]⟩) =
      ⟨"sp", "Moderadamente Próxima (55.7 km)", 4, 1, some (3/2, 1/2),
        [(3/2, 1/2)]⟩ := by
  have hw : Rect.withinPt ⟨0, 0, 1, 1⟩ ((3:ℚ)/2, (2:ℚ)⁻¹) = false := by
    simp only [Rect.withinPt, decide_eq_false_iff_not]
    norm_num
  have hd : Rect.distPt ⟨0, 0, 1, 1⟩ ((3:ℚ)/2, (2:ℚ)⁻¹) = 2⁻¹ := by
    simp only [Rect.distPt]
    norm_num [max_def]
  have hc1 : ¬ (100:ℚ) ≤ 2⁻¹ * (2783/25) := by norm_num
  have hc2 : ¬ (2⁻¹ * (2783/25) : ℚ) < 1 := by norm_num
  have hc3 : ¬ (2⁻¹ * (2783/25) : ℚ) < 50 := by norm_num
  have hescore : pyRound (9 * (1 - 2⁻¹ * (2783/25) / 100)) = 4 := by
    norm_num [pyRound]
  have hfmt : pyRound (10 * (2⁻¹ * (2783/25))) = 557 := by
    norm_num [pyRound]
  simp [analisarEspecieApp, coordsOf, List.filter, hw, minimumD, nearestPt,
    hd, hc1, hc2, hc3, hescore, labelModeradamenteProxima, fmt1, hfmt]
  rfl

/-- C7 counterexample: the spec's own example — a 1°×1° square at the
equator, threshold 100 km, one occurrence 0.5° (55.66 km) outside the
edge.  The score is 4 as claimed, but the label is the moderately-near
bucket (55.66 km ≥ 50 km), not the near bucket claimed. -/
theorem analisar_meio_grau_counterexample :
    (analisarEspecieApp (Rect.withinPt ⟨0, 0, 1, 1⟩)
        (Rect.distPt ⟨0, 0, 1, 1⟩) 100 "sp"
        (some ⟨1, [⟨some (3/2), some (1/2)⟩]⟩)).escore_proximidade = 4 ∧
    (analisarEspecieApp (Rect.withinPt ⟨0, 0, 1, 1⟩)
        (Rect.distPt ⟨0, 0, 1, 1⟩) 100 "sp"
        (some ⟨1, [⟨some (3/2), some (1/2)⟩]⟩)).ocorrencia_na_regiao =
      "Moderadamente Próxima (55.7 km)" ∧
    ¬ (analisarEspecieApp (Rect.withinPt ⟨0, 0, 1, 1⟩)
        (Rect.distPt ⟨0, 0, 1, 1⟩) 100 "sp"
        (some ⟨1, [⟨some (3/2), some (1/2)⟩]⟩)).ocorrencia_na_regiao =
      "Próxima (55.7 km)" := by
  rw [example_meio_grau_eval]
  refine ⟨rfl, rfl, ?_⟩
  decide

/-- C7 (amended): below the threshold the label is bucketed by absolute
distance — very-near (< 1 km), near (< 50 km), moderately-near
(otherwise) — independently of the numeric score; and in the spec's
1°×1°-square example with threshold 100 km and a point 0.5°
(55.66 km) outside the edge, the score is `round(9*(1-55.66/100)) = 4`
and the label is **moderately-near** (55.66 ≥ 50). -/
theorem analisar_label_buckets (within : Pt → Bool) (dist : Pt → ℚ)
    (T : ℚ) (especie : String) (dados : GbifResp)
    (hpts : coordsOf dados.results ≠ [])
    (hfora : (coordsOf dados.results).filter within = [])
    (hlt : minimumD dist (coordsOf dados.results) * (2783/25) < T) :
    ((analisarEspecieApp within dist T especie
        (some dados)).ocorrencia_na_regiao =
      if minimumD dist (coordsOf dados.results) * (2783/25) < 1 then
        labelMuitoProxima
          (minimumD dist (coordsOf dados.results) * (2783/25))
      else if minimumD dist (coordsOf dados.results) * (2783/25) < 50 then
        labelProxima (minimumD dist (coordsOf dados.results) * (2783/25))
      else
        labelModeradamenteProxima
          (minimumD dist (coordsOf dados.results) * (2783/25))) ∧
    (analisarEspecieApp (Rect.withinPt ⟨0, 0, 1, 1⟩)
        (Rect.distPt ⟨0, 0, 1, 1⟩) 100 "sp"
        (some ⟨1, [⟨some (3/2), some (1/2)⟩]⟩)).escore_proximidade = 4 ∧
    (analisarEspecieApp (Rect.withinPt ⟨0, 0, 1, 1⟩)
        (Rect.distPt ⟨0, 0, 1, 1⟩) 100 "sp"
        (some ⟨1, [⟨some (3/2), some (1/2)⟩]⟩)).ocorrencia_na_regiao =
      "Moderadamente Próxima (55.7 km)" := by
  have hres : dados.results ≠ [] := by
    intro h0
    exact hpts (by simp [coordsOf, h0])
  refine ⟨?_, ?_, ?_⟩
  · simp only [analisarEspecieApp]
    simp [List.isEmpty_iff, hres, hpts, hfora, not_le.mpr hlt]
    split_ifs <;> rfl
  · rw [example_meio_grau_eval]
  · rw [example_meio_grau_eval]

/-- Witness for the amended C7 theorem at the spec's example input. -/
theorem analisar_label_buckets_witness :
    ((analisarEspecieApp (Rect.withinPt ⟨0, 0, 1, 1⟩)
        (Rect.distPt ⟨0, 0, 1, 1⟩) 100 "sp"
        (some ⟨1, [⟨some (3/2), some (1/2)⟩]⟩)).ocorrencia_na_regiao =
      if minimumD (Rect.distPt ⟨0, 0, 1, 1⟩)
          (coordsOf [⟨some (3/2), some (1/2)⟩]) * (2783/25) < 1 then
        labelMuitoProxima (minimumD (Rect.distPt ⟨0, 0, 1, 1⟩)
          (coordsOf [⟨some (3/2), some (1/2)⟩]) * (2783/25))
      else if minimumD (Rect.distPt ⟨0, 0, 1, 1⟩)
          (coordsOf [⟨some (3/2), some (1/2)⟩]) * (2783/25) < 50 then
        labelProxima (minimumD (Rect.distPt ⟨0, 0, 1, 1⟩)
          (coordsOf [⟨some (3/2), some (1/2)⟩]) * (2783/25))
      else
        labelModeradamenteProxima (minimumD (Rect.distPt ⟨0, 0, 1, 1⟩)
          (coordsOf [⟨some (3/2), some (1/2)⟩]) * (2783/25))) ∧
    (analisarEspecieApp (Rect.withinPt ⟨0, 0, 1, 1⟩)
        (Rect.distPt ⟨0, 0, 1, 1⟩) 100 "sp"
        (some ⟨1, [⟨some (3/2), some (1/2)⟩]⟩)).escore_proximidade = 4 ∧
    (analisarEspecieApp (Rect.withinPt ⟨0, 0, 1, 1⟩)
        (Rect.distPt ⟨0, 0, 1, 1⟩) 100 "sp"
        (some ⟨1, [⟨some (3/2), some (1/2)⟩]⟩)).ocorrencia_na_regiao =
      "Moderadamente Próxima (55.7 km)" := by
  have hw : Rect.withinPt ⟨0, 0, 1, 1⟩ ((3:ℚ)/2, (2:ℚ)⁻¹) = false := by
    simp only [Rect.withinPt, decide_eq_false_iff_not]
    norm_num
  have hd : Rect.distPt ⟨0, 0, 1, 1⟩ ((3:ℚ)/2, (2:ℚ)⁻¹) = 2⁻¹ := by
    simp only [Rect.distPt]
    norm_num [max_def]
  have hco : coordsOf [⟨some (3/2), some (1/2)⟩] =
      [((3:ℚ)/2, (2:ℚ)⁻¹)] := by
    simp [coordsOf]
  exact analisar_label_buckets (Rect.withinPt ⟨0, 0, 1, 1⟩)
    (Rect.distPt ⟨0, 0, 1, 1⟩) 100 "sp" ⟨1, [⟨some (3/2), some (1/2)⟩]⟩
    (by rw [hco]; simp)
    (by rw [hco]; simp [List.filter, hw])
    (by rw [hco]; simp [minimumD, hd]; norm_num)

/-- C8: the trait cache memoizes by scientific name for one session
(which starts with an empty cache): a name queried in a first call and
again in a second call (or twice in one call — the fetch list is
deduplicated) triggers exactly one external lookup in total, and the
second query returns the cached value unchanged. -/
theorem get_plant_traits_memoizes
    (lookupFn : String → Except Unit (Option String))
    (names₁ names₂ : List String) (n : String)
    (hn : n ≠ "") (h1 : n ∈ names₁) (h2 : n ∈ names₂) :
    (get_plant_traits lookupFn [] names₁).fetched.count n +
      (get_plant_traits lookupFn (get_plant_traits lookupFn [] names₁).cache
        names₂).fetched.count n = 1 ∧
    lookupA (get_plant_traits lookupFn [] names₁).traits n =
      some (traitValue (lookupFn n)) ∧
    lookupA (get_plant_traits lookupFn
        (get_plant_traits lookupFn [] names₁).cache names₂).traits n =
      lookupA (get_plant_traits lookupFn [] names₁).traits n := by
  have hmem1 : n ∈ (get_plant_traits lookupFn [] names₁).fetched := by
    show n ∈ names_to_fetch [] names₁
    rw [mem_names_to_fetch]
    exact ⟨h1, hn, rfl⟩
  have hcount1 : (get_plant_traits lookupFn [] names₁).fetched.count n = 1 :=
    List.count_eq_one_of_mem (names_to_fetch_nodup [] names₁) hmem1
  have hcache1 : lookupA (get_plant_traits lookupFn [] names₁).cache n =
      some (traitValue (lookupFn n)) :=
    get_plant_traits_cache_new lookupFn [] names₁ n hn h1 rfl
  have hnot2 : n ∉ (get_plant_traits lookupFn
      (get_plant_traits lookupFn [] names₁).cache names₂).fetched := by
    show n ∉ names_to_fetch (get_plant_traits lookupFn [] names₁).cache names₂
    rw [mem_names_to_fetch]
    rintro ⟨-, -, hmiss⟩
    rw [hcache1] at hmiss
    cases hmiss
  have hcount2 : (get_plant_traits lookupFn
      (get_plant_traits lookupFn [] names₁).cache names₂).fetched.count n = 0 :=
    List.count_eq_zero.mpr hnot2
  have hcache2 : lookupA (get_plant_traits lookupFn
      (get_plant_traits lookupFn [] names₁).cache names₂).cache n =
      some (traitValue (lookupFn n)) :=
    get_plant_traits_cache_old lookupFn _ names₂ n _ hcache1
  refine ⟨by rw [hcount1, hcount2], ?_, ?_⟩
  · rw [get_plant_traits_lookup lookupFn [] names₁ n hn h1, hcache1]
    rfl
  · rw [get_plant_traits_lookup lookupFn _ names₂ n hn h2, hcache2,
      get_plant_traits_lookup lookupFn [] names₁ n hn h1, hcache1]

/-- Witness for C8: the same name queried in two successive calls of
one session, with a lookup that always returns a life form. -/
theorem get_plant_traits_memoizes_witness :
    (get_plant_traits (fun _ => .ok (some "arbusto")) []
        ["Roupala montana", "Roupala montana"]).fetched.count
      "Roupala montana" +
      (get_plant_traits (fun _ => .ok (some "arbusto"))
        (get_plant_traits (fun _ => .ok (some "arbusto")) []
          ["Roupala montana", "Roupala montana"]).cache
        ["Roupala montana"]).fetched.count "Roupala montana" = 1 ∧
    lookupA (get_plant_traits (fun _ => .ok (some "arbusto")) []
        ["Roupala montana", "Roupala montana"]).traits "Roupala montana" =
      some (traitValue ((fun _ => .ok (some "arbusto")) "Roupala montana")) ∧
    lookupA (get_plant_traits (fun _ => .ok (some "arbusto"))
        (get_plant_traits (fun _ => .ok (some "arbusto")) []
          ["Roupala montana", "Roupala montana"]).cache
        ["Roupala montana"]).traits "Roupala montana" =
      lookupA (get_plant_traits (fun _ => .ok (some "arbusto")) []
        ["Roupala montana", "Roupala montana"]).traits "Roupala montana" :=
  get_plant_traits_memoizes (fun _ => .ok (some "arbusto"))
    ["Roupala montana", "Roupala montana"] ["Roupala montana"]
    "Roupala montana" (by decide) (by simp) (by simp)

/-- C9 counterexample: a connection error
(`requests.exceptions.RequestException`) during the trait lookup is
caught *inside* `get_categoria_flora_brasil`, which returns `None`; the
cache therefore records the uncategorized sentinel
`"Não categorizado"`, not a distinct error value. -/
theorem trait_connection_error_counterexample :
    get_categoria_flora_brasil (fun _ => .reqErr) "Ficus elastica" =
      .ok none ∧
    lookupA (get_plant_traits
        (fun nm => get_categoria_flora_brasil (fun _ => .reqErr) nm) []
        ["Ficus elastica"]).traits "Ficus elastica" =
      some "Não categorizado" := by
  constructor
  · rfl
  · rfl

/-- C9 (amended): a trait lookup that *raises* out of
`get_categoria_flora_brasil` (e.g. a malformed-response decoding error —
but not a connection error, which the function itself catches and turns
into `None`/uncategorized) is recorded in the cache as the distinct
error value `"Erro ao buscar dados"`, different from the uncategorized
sentinel, and that cached value is returned on subsequent queries of the
same name in the session without invoking the lookup again; a
connection error, by contrast, always yields a plain `None` from
`get_categoria_flora_brasil`. -/
theorem get_plant_traits_error_cached
    (lookupFn : String → Except Unit (Option String))
    (names : List String) (n : String) (hn : n ≠ "") (hmem : n ∈ names)
    (herr : lookupFn n = .error ()) :
    lookupA (get_plant_traits lookupFn [] names).traits n =
      some "Erro ao buscar dados" ∧
    "Erro ao buscar dados" ≠ "Não categorizado" ∧
    (get_plant_traits lookupFn (get_plant_traits lookupFn [] names).cache
      names).fetched.count n = 0 ∧
    lookupA (get_plant_traits lookupFn
        (get_plant_traits lookupFn [] names).cache names).traits n =
      some "Erro ao buscar dados" ∧
    (∀ m : String,
      get_categoria_flora_brasil (fun _ => .reqErr) m = .ok none) := by
  have hval : traitValue (lookupFn n) = "Erro ao buscar dados" := by
    rw [herr]
    rfl
  have hcache1 : lookupA (get_plant_traits lookupFn [] names).cache n =
      some "Erro ao buscar dados" := by
    rw [get_plant_traits_cache_new lookupFn [] names n hn hmem rfl, hval]
  have hnot2 : n ∉ (get_plant_traits lookupFn
      (get_plant_traits lookupFn [] names).cache names).fetched := by
    show n ∉ names_to_fetch (get_plant_traits lookupFn [] names).cache names
    rw [mem_names_to_fetch]
    rintro ⟨-, -, hmiss⟩
    rw [hcache1] at hmiss
    cases hmiss
  refine ⟨?_, by decide, List.count_eq_zero.mpr hnot2, ?_, ?_⟩
  · rw [get_plant_traits_lookup lookupFn [] names n hn hmem, hcache1]
    rfl
  · rw [get_plant_traits_lookup lookupFn _ names n hn hmem,
      get_plant_traits_cache_old lookupFn _ names n _ hcache1]
    rfl
  · intro m
    simp [get_categoria_flora_brasil]

/-- Witness for the amended C9 theorem: a lookup that raises on its
single queried name. -/
theorem get_plant_traits_error_cached_witness :
    lookupA (get_plant_traits (fun _ => .error ()) []
        ["Ficus elastica"]).traits "Ficus elastica" =
      some "Erro ao buscar dados" ∧
    (get_plant_traits (fun _ => .error ())
        (get_plant_traits (fun _ => .error ()) [] ["Ficus elastica"]).cache
        ["Ficus elastica"]).fetched.count "Ficus elastica" = 0 := by
  have h := get_plant_traits_error_cached (fun _ => .error ())
    ["Ficus elastica"] "Ficus elastica" (by decide) (by simp) rfl
  exact ⟨h.1, h.2.2.1⟩
